import Mathlib

/-!
# Verification of the startup-strategist orchestration pipeline

Shallow embedding of `src/startup_strategist.py`: the response normalizer
(markdown fence stripping + JSON parsing), the fan-out coordinator
(`parallel_map` / `final_chain`), the synthesis-input construction, the
prompt templates, and the top-level `StartupStrategist.generate_strategy`
error handling.  Strings are modelled as `List Char`; machine-level I/O
(the two LLM providers, the file system) is modelled by explicit outcome
parameters.
-/

/-- Convert a Lean string literal to the `List Char` representation used
throughout the development. -/
def strL (s : String) : List Char := s.data

namespace Strategist

/-- The whitespace characters stripped by Python `str.strip()` (ASCII range;
the inputs manipulated by the pipeline are ASCII-delimited). -/
def isPySpace (c : Char) : Bool :=
  c = ' ' || c = '\t' || c = '\n' || c = '\r' || c = '\x0b' || c = '\x0c'

/-- Python `str.strip()`: remove leading and trailing whitespace. -/
def pyStrip (l : List Char) : List Char :=
  ((l.dropWhile isPySpace).reverse.dropWhile isPySpace).reverse

/-- The fenced-code-block opener tagged as JSON, `"```json"` (7 characters),
tested by `cleaned_result.startswith` in `generate_strategy`. -/
def fenceOpen : List Char := strL "```json"

/-- The fenced-code-block closer `"```"` tested by `cleaned_result.endswith`. -/
def fenceClose : List Char := strL "```"

/-- Line 177–178: `if cleaned_result.startswith('```json'): cleaned_result =
cleaned_result[7:]`. -/
def dropOpen (l : List Char) : List Char :=
  if fenceOpen.isPrefixOf l then l.drop 7 else l

/-- Line 179–180: `if cleaned_result.endswith('```'): cleaned_result =
cleaned_result[:-3]`. -/
def dropClose (l : List Char) : List Char :=
  if fenceClose.isSuffixOf l then l.take (l.length - 3) else l

/-- The clean-up step of `StartupStrategist.generate_strategy`
(`src/startup_strategist.py` lines 176–181):
strip, drop a leading ```` ```json ```` (7 chars) when present, drop a
trailing ```` ``` ```` (3 chars) when present, strip again. -/
def stripFences (l : List Char) : List Char :=
  pyStrip (dropClose (dropOpen (pyStrip l)))


/-! ## JSON documents and a model of `json.loads`

`generate_strategy` parses the cleaned synthesis output with the Python
standard-library call `json.loads`.  We embed JSON documents with numbers
kept as their source lexeme (the pipeline never computes with them) and a
recursive-descent parser for the `json.loads` grammar; `none` models a
raised `json.JSONDecodeError`. -/

inductive Json where
  | null
  | bool (b : Bool)
  | num (lex : List Char)
  | str (s : List Char)
  | arr (items : List Json)
  | obj (members : List (List Char × Json))

/-- JSON inter-token whitespace accepted by `json.loads`. -/
def isJsonWs (c : Char) : Bool :=
  c = ' ' || c = '\t' || c = '\n' || c = '\r'

def skipWs (l : List Char) : List Char := l.dropWhile isJsonWs

/-- Value of a hexadecimal digit, for `\uXXXX` escapes. -/
def hexVal (c : Char) : Option Nat :=
  if '0' ≤ c ∧ c ≤ '9' then some (c.toNat - 48)
  else if 'a' ≤ c ∧ c ≤ 'f' then some (c.toNat - 87)
  else if 'A' ≤ c ∧ c ≤ 'F' then some (c.toNat - 55)
  else none

/-- Single-character string escapes of JSON. -/
def escChar : Char → Option Char
  | '"' => some '"'
  | '\\' => some '\\'
  | '/' => some '/'
  | 'b' => some '\x08'
  | 'f' => some '\x0c'
  | 'n' => some '\n'
  | 'r' => some '\r'
  | 't' => some '\t'
  | _ => none

/-- Parse the body of a JSON string after the opening quote; returns the
decoded content and the remainder after the closing quote.  Unescaped
control characters are rejected (strict mode); surrogate-pair escapes are
not modelled. -/
def parseStringBody : List Char → Option (List Char × List Char)
  | [] => none
  | '"' :: rest => some ([], rest)
  | '\\' :: 'u' :: a :: b :: c :: d :: rest => do
      let ha ← hexVal a
      let hb ← hexVal b
      let hc ← hexVal c
      let hd ← hexVal d
      let n := ((ha * 16 + hb) * 16 + hc) * 16 + hd
      if n < 55296 || 57344 ≤ n then
        let p ← parseStringBody rest
        pure (Char.ofNat n :: p.1, p.2)
      else none
  | '\\' :: e :: rest => do
      let c ← escChar e
      let p ← parseStringBody rest
      pure (c :: p.1, p.2)
  | '\\' :: [] => none
  | c :: rest =>
      if c.toNat < 32 then none
      else do
        let p ← parseStringBody rest
        pure (c :: p.1, p.2)

/-- Lex the integer part of a JSON number: `0`, or a nonzero digit run. -/
def lexInt : List Char → Option (List Char × List Char)
  | [] => none
  | c :: rest =>
      if c = '0' then some (['0'], rest)
      else if c.isDigit then
        let p := rest.span Char.isDigit
        some (c :: p.1, p.2)
      else none

/-- Lex an optional fraction part `.digits`. -/
def lexFrac : List Char → (List Char × List Char)
  | '.' :: c :: rest =>
      if c.isDigit then
        let p := rest.span Char.isDigit
        ('.' :: c :: p.1, p.2)
      else ([], '.' :: c :: rest)
  | l => ([], l)

/-- Lex an optional exponent part `[eE][+-]?digits`. -/
def lexExp : List Char → (List Char × List Char)
  | e :: s :: rest =>
      if e = 'e' || e = 'E' then
        if s = '+' || s = '-' then
          let p := rest.span Char.isDigit
          if p.1.isEmpty then ([], e :: s :: rest) else (e :: s :: p.1, p.2)
        else if s.isDigit then
          let p := rest.span Char.isDigit
          (e :: s :: p.1, p.2)
        else ([], e :: s :: rest)
      else ([], e :: s :: rest)
  | l => ([], l)

/-- Lex an unsigned JSON number (integer, fraction, exponent). -/
def lexNumberCore (l : List Char) : Option (List Char × List Char) := do
  let (ipart, r1) ← lexInt l
  let fr := lexFrac r1
  let ex := lexExp fr.2
  pure (ipart ++ fr.1 ++ ex.1, ex.2)

/-- Lex a JSON number with optional leading minus sign. -/
def lexNumber : List Char → Option (List Char × List Char)
  | '-' :: rest => (lexNumberCore rest).map fun p => ('-' :: p.1, p.2)
  | l => lexNumberCore l

mutual

/-- Parse one JSON value; `fuel` bounds recursion depth and is supplied as
`length + 1` at top level, which suffices since every recursive call sits
behind at least one consumed character. -/
def parseValue : Nat → List Char → Option (Json × List Char)
  | 0, _ => none
  | Nat.succ fuel, l =>
    match skipWs l with
    | [] => none
    | c :: rest =>
      if c = '"' then (parseStringBody rest).map fun p => (Json.str p.1, p.2)
      else if c = '[' then
        match skipWs rest with
        | ']' :: r2 => some (Json.arr [], r2)
        | r2 => (parseItems fuel r2).map fun p => (Json.arr p.1, p.2)
      else if c = '\x7b' then
        match skipWs rest with
        | '\x7d' :: r2 => some (Json.obj [], r2)
        | r2 => (parseMembers fuel r2).map fun p => (Json.obj p.1, p.2)
      else if (strL "true").isPrefixOf (c :: rest) then some (Json.bool true, (c :: rest).drop 4)
      else if (strL "false").isPrefixOf (c :: rest) then some (Json.bool false, (c :: rest).drop 5)
      else if (strL "null").isPrefixOf (c :: rest) then some (Json.null, (c :: rest).drop 4)
      else if (strL "NaN").isPrefixOf (c :: rest) then some (Json.num (strL "NaN"), (c :: rest).drop 3)
      else if (strL "Infinity").isPrefixOf (c :: rest) then
        some (Json.num (strL "Infinity"), (c :: rest).drop 8)
      else if (strL "-Infinity").isPrefixOf (c :: rest) then
        some (Json.num (strL "-Infinity"), (c :: rest).drop 9)
      else (lexNumber (c :: rest)).map fun p => (Json.num p.1, p.2)

/-- Parse the items of a non-empty array up to the closing bracket. -/
def parseItems : Nat → List Char → Option (List Json × List Char)
  | 0, _ => none
  | Nat.succ fuel, l => do
    let (v, r) ← parseValue fuel l
    match skipWs r with
    | ']' :: r2 => some ([v], r2)
    | ',' :: r2 => do
        let (vs, r3) ← parseItems fuel r2
        pure (v :: vs, r3)
    | _ => none

/-- Parse the members of a non-empty object up to the closing brace. -/
def parseMembers : Nat → List Char → Option (List (List Char × Json) × List Char)
  | 0, _ => none
  | Nat.succ fuel, l =>
    match skipWs l with
    | '"' :: rest => do
        let (k, r1) ← parseStringBody rest
        match skipWs r1 with
        | ':' :: r2 => do
            let (v, r3) ← parseValue fuel r2
            match skipWs r3 with
            | '\x7d' :: r4 => some ([(k, v)], r4)
            | ',' :: r4 => do
                let (ms, r5) ← parseMembers fuel r4
                pure ((k, v) :: ms, r5)
            | _ => none
        | _ => none
    | _ => none

end

/-- Model of Python `json.loads`: parse a complete document, allowing
surrounding whitespace but no trailing data; `none` models a raised
`json.JSONDecodeError`. -/
def json_loads (l : List Char) : Option Json :=
  match parseValue (l.length + 1) l with
  | some (j, rest) => if skipWs rest = [] then some j else none
  | none => none

/-- The response normalizer inside `generate_strategy` (lines 176–184):
fence stripping followed by `json.loads`. -/
def normalize (raw : List Char) : Option Json :=
  json_loads (stripFences raw)


/-! ## The request, the stage templates, and the fan-out chain -/

/-- A Python value as threaded through the chain dictionaries: the request
fields are strings in the intended use, but the code performs no type
check, so nested dictionaries are representable too. -/
inductive PyVal where
  | s (v : List Char)
  | dict (kvs : List (List Char × PyVal))

abbrev PyDict := List (List Char × PyVal)

/-- Python dictionary lookup, first binding wins (the dictionaries built by
the code carry distinct keys); `none` models a raised `KeyError`. -/
def pyLookup (d : PyDict) (k : List Char) : Option PyVal :=
  (d.find? fun kv => kv.1 == k).map (·.2)

/-- `d[k]` raising `KeyError` when the key is absent. -/
def pyGet (d : PyDict) (k : List Char) : Except (List Char) PyVal :=
  match pyLookup d k with
  | some v => .ok v
  | none => .error (strL "KeyError: " ++ k)

/-- `x[k]` on an arbitrary value: `KeyError` on a dictionary missing the
key, `TypeError` when subscripting a non-dictionary. -/
def pySub (x : PyVal) (k : List Char) : Except (List Char) PyVal :=
  match x with
  | .s _ => .error (strL "TypeError")
  | .dict d => pyGet d k

/-- The six request fields documented for `generate_strategy` and consumed
by the stage templates. -/
structure StrategyRequest where
  niche : List Char
  stage : List Char
  geo : List Char
  founder_profile : List Char
  constraints : List Char
  goals : List Char

/-- Rendered `problem_prompt` (lines 28–33). -/
def problem_prompt_render (r : StrategyRequest) : List Char :=
  strL "\nYou are a ruthless product discovery expert.\nNiche: " ++ r.niche
    ++ strL "; Geo: " ++ r.geo ++ strL "; Stage: " ++ r.stage ++ strL "; Founder: "
    ++ r.founder_profile ++ strL "; Constraints: " ++ r.constraints
    ++ strL ".\nList top 5 concrete problems (pain × frequency × willingness to pay) as JSON:\n[\x7b\"problem\":\"...\", \"evidence\":\"(what makes it real)\", \"current_workaround\":\"...\", \"severity\":1-5\x7d]\n"

/-- Rendered `market_prompt` (lines 36–39). -/
def market_prompt_render (r : StrategyRequest) : List Char :=
  strL "\nYou are a market mapper. Niche: " ++ r.niche ++ strL "; Geo: " ++ r.geo
    ++ strL ".\nProduce JSON with keys: segments (3-5), competitors (5-8, direct/indirect/substitute), whitespace (bullets).\n"

/-- Rendered `personas_prompt` (lines 42–45). -/
def personas_prompt_render (r : StrategyRequest) : List Char :=
  strL "\nDesign 2-3 buyer/user personas for " ++ r.niche ++ strL " in " ++ r.geo
    ++ strL ".\nReturn JSON: [\x7b \"name\": \"...\", \"segment\": \"...\", \"primary_jobs\":[], \"top_pains\":[], \"must_have_outcomes\":[] \x7d]\n"

/-- Rendered `solutions_prompt` (lines 48–51). -/
def solutions_prompt_render (r : StrategyRequest) : List Char :=
  strL "\nPropose 3 candidate solution shapes for " ++ r.niche
    ++ strL " given constraints: " ++ r.constraints
    ++ strL ".\nReturn JSON: [\x7b\"name\":\"...\", \"v0_scope\":[\"...\"], \"tradeoffs\":[\"...\"]\x7d]\n"

/-- Rendered `gtm_prompt` (lines 54–57). -/
def gtm_prompt_render (r : StrategyRequest) : List Char :=
  strL "\nGTM for " ++ r.niche ++ strL " in " ++ r.geo ++ strL ". Constraints: "
    ++ r.constraints ++ strL ". Stage: " ++ r.stage
    ++ strL ".\nReturn JSON: \x7b\"positioning\":\"...\", \"channels\":[\"...\"], \"hooks\":[\"...\"], \"partnerships\":[\"...\"]\x7d\n"

/-- Rendered `tech_prompt` (lines 60–63). -/
def tech_prompt_render (r : StrategyRequest) : List Char :=
  strL "\nPropose an MVP-first architecture for " ++ r.niche
    ++ strL " considering founder skills: " ++ r.founder_profile
    ++ strL ".\nReturn JSON: \x7b\"architecture\":\"...\", \"stack_choices\":[\"...\"], \"ai_components\":[\"...\"], \"data_sources\":[\"...\"], \"security_compliance\":\"...\", \"scaling_plan\":\"...\", \"build_vs_buy\":[\"...\"]\x7d\n"

/-- Rendered `ops_prompt` (lines 66–69). -/
def ops_prompt_render (r : StrategyRequest) : List Char :=
  strL "\nOutline ops & compliance for " ++ r.niche ++ strL " in " ++ r.geo
    ++ strL ". Stage: " ++ r.stage
    ++ strL ".\nReturn JSON: \x7b\"team_plan\":[\x7b\"role\":\"...\",\"seniority\":\"...\",\"when\":\"now|later\"\x7d], \"processes\":[\"...\"], \"legal_compliance\":[\"...\"], \"tooling\":[\"...\"]\x7d\n"

/-- Rendered `risks_prompt` (lines 72–75). -/
def risks_prompt_render (r : StrategyRequest) : List Char :=
  strL "\nList top 8 risks for " ++ r.niche
    ++ strL " with likelihood and mitigation. JSON:\n[\x7b\"risk\":\"...\", \"likelihood\":\"low|med|high\", \"mitigation\":\"...\", \"owner\":\"founder|eng|ops|growth\"\x7d]\n"

/-- The eight stage outputs (`problem_chain` … `risks_chain`), already
converted to text by `StrOutputParser`. -/
structure StageResults where
  problem_map : List Char
  market_scan : List Char
  personas : List Char
  solution_shapes : List Char
  gtm_ideas : List Char
  tech_notes : List Char
  ops_notes : List Char
  risks_list : List Char

/-- One provider call's outcome: the text completion, or a raised exception
carrying its `str(e)` rendering. -/
abbrev Outcome := Except (List Char) (List Char)

/-- The outcomes of the eight stage calls issued by `parallel_map`
(lines 105–115); the calls themselves are external network I/O. -/
structure StageOutcomes where
  problem_map : Outcome
  market_scan : Outcome
  personas : Outcome
  solution_shapes : Outcome
  gtm_ideas : Outcome
  tech_notes : Outcome
  ops_notes : Outcome
  risks_list : Outcome

/-- Names of the eight stages, in the order `parallel_map` declares them. -/
inductive StageName where
  | problem_map
  | market_scan
  | personas
  | solution_shapes
  | gtm_ideas
  | tech_notes
  | ops_notes
  | risks_list
deriving DecidableEq

/-- Select one stage's outcome by name. -/
def stageOutcome (o : StageOutcomes) : StageName → Outcome
  | .problem_map => o.problem_map
  | .market_scan => o.market_scan
  | .personas => o.personas
  | .solution_shapes => o.solution_shapes
  | .gtm_ideas => o.gtm_ideas
  | .tech_notes => o.tech_notes
  | .ops_notes => o.ops_notes
  | .risks_list => o.risks_list

/-- The fan-out join of `RunnableParallel`: all eight stages must succeed;
the first failure (in declaration order) aborts the whole map. -/
def run_stages (o : StageOutcomes) : Except (List Char) StageResults := do
  let pm ← o.problem_map
  let ms ← o.market_scan
  let pe ← o.personas
  let ss ← o.solution_shapes
  let gi ← o.gtm_ideas
  let tn ← o.tech_notes
  let op ← o.ops_notes
  let rl ← o.risks_list
  pure ⟨pm, ms, pe, ss, gi, tn, op, rl⟩

/-- The dictionary produced by `parallel_map` on success: the eight stage
texts plus the original input under `"passthrough"` (lines 105–115). -/
def parallel_map_output (inputs : PyDict) (sr : StageResults) : PyDict :=
  [(strL "problem_map", .s sr.problem_map),
   (strL "market_scan", .s sr.market_scan),
   (strL "personas", .s sr.personas),
   (strL "solution_shapes", .s sr.solution_shapes),
   (strL "gtm_ideas", .s sr.gtm_ideas),
   (strL "tech_notes", .s sr.tech_notes),
   (strL "ops_notes", .s sr.ops_notes),
   (strL "risks_list", .s sr.risks_list),
   (strL "passthrough", .dict inputs)]

/-- The merge lambda of `final_chain` (lines 122–137): maps the
`parallel_map` output into the synthesis prompt variables, in the order the
source dictionary literal evaluates its entries. -/
def merge_lambda (x : PyDict) : Except (List Char) (List (List Char × PyVal)) := do
  let pt ← pyGet x (strL "passthrough")
  let niche ← pySub pt (strL "niche")
  let stg ← pySub pt (strL "stage")
  let geo ← pySub pt (strL "geo")
  let fp ← pySub pt (strL "founder_profile")
  let cons ← pySub pt (strL "constraints")
  let gl ← pySub pt (strL "goals")
  let pm ← pyGet x (strL "problem_map")
  let ms ← pyGet x (strL "market_scan")
  let pe ← pyGet x (strL "personas")
  let ss ← pyGet x (strL "solution_shapes")
  let gi ← pyGet x (strL "gtm_ideas")
  let tn ← pyGet x (strL "tech_notes")
  let op ← pyGet x (strL "ops_notes")
  let rl ← pyGet x (strL "risks_list")
  pure [(strL "niche", niche), (strL "stage", stg), (strL "geo", geo),
        (strL "founder_profile", fp), (strL "constraints", cons), (strL "goals", gl),
        (strL "problem_map", pm), (strL "market_scan", ms), (strL "personas", pe),
        (strL "solution_shapes", ss), (strL "gtm_ideas", gi), (strL "tech_notes", tn),
        (strL "ops_notes", op), (strL "risks_list", rl)]

/-- The value fed into `synthesis_prompt`: `merge_lambda` applied to the
fan-out output. -/
def synthesis_input (inputs : PyDict) (sr : StageResults) :
    Except (List Char) (List (List Char × PyVal)) :=
  merge_lambda (parallel_map_output inputs sr)

/-- One invocation of `final_chain` (lines 118–142): fail-fast fan-out,
merge, then the synthesis provider call, whose outcome as a function of the
prompt variables is the external parameter `synth`. -/
def final_chain_invoke (inputs : PyDict) (o : StageOutcomes)
    (synth : List (List Char × PyVal) → Outcome) : Outcome := do
  let sr ← run_stages o
  let vars ← synthesis_input inputs sr
  synth vars

/-! ## The synthesis template resource -/

/-- The embedded fallback synthesis template (lines 85–88). -/
def fallback_template : List Char :=
  strL "\n        You are a startup strategist. Synthesize all inputs into a comprehensive strategy.\n        Output valid JSON with: assumptions, one_liner, problem_statement, target_personas, market, solution, tech, gtm, ops, metrics, finance, risks_and_mitigations, execution_board.\n        "

/-- `load_synthesis_prompt` (lines 78–88) as a function of the file-system
state: the content of `strategist_master_prompt.txt` when present, the
embedded fallback when the `open` raises `FileNotFoundError`. -/
def load_synthesis_prompt (file : Option (List Char)) : List Char :=
  match file with
  | some content => content
  | none => fallback_template

/-- The template in effect for a synthesis call, as a function of the file
state at module import and at call time.  Line 90 evaluates
`load_synthesis_prompt()` once, when the module is imported
(`synthesis_prompt = ChatPromptTemplate.from_template(load_synthesis_prompt())`),
so only the import-time state matters. -/
def template_at_call (fileAtImport _fileAtCall : Option (List Char)) : List Char :=
  load_synthesis_prompt fileAtImport

/-! ## `generate_strategy` and `print_strategy` -/

/-- The dictionary `\x7b"error": ..., "raw": ...\x7d` returned on a
`json.JSONDecodeError` (line 192): the fixed message and the FULL raw text. -/
def errorResultParse (raw : List Char) : Json :=
  Json.obj [(strL "error", Json.str (strL "Failed to parse JSON response")),
            (strL "raw", Json.str raw)]

/-- The dictionary `\x7b"error": str(e)\x7d` returned on any other
exception (line 195). -/
def errorResultOther (msg : List Char) : Json :=
  Json.obj [(strL "error", Json.str msg)]

/-- `StartupStrategist.generate_strategy` (lines 150–195).  The banner
`print`s at lines 167–169 subscript `inputs` before the `try` block, so a
missing `niche`, `geo` or `stage` key raises an uncaught `KeyError`
(modelled by `.error`); afterwards every failure inside the `try` is
converted into a returned error dictionary (`.ok`). -/
def generate_strategy (inputs : PyDict) (o : StageOutcomes)
    (synth : List (List Char × PyVal) → Outcome) : Except (List Char) Json :=
  match pyLookup inputs (strL "niche") with
  | none => .error (strL "KeyError: niche")
  | some _ =>
    match pyLookup inputs (strL "geo") with
    | none => .error (strL "KeyError: geo")
    | some _ =>
      match pyLookup inputs (strL "stage") with
      | none => .error (strL "KeyError: stage")
      | some _ =>
        match final_chain_invoke inputs o synth with
        | .error e => .ok (errorResultOther e)
        | .ok raw =>
          match normalize raw with
          | some strategy => .ok strategy
          | none => .ok (errorResultParse raw)

/-- Does a JSON value equal the Python string `"error"`? (used for list
membership below). -/
def isErrorStr : Json → Bool
  | Json.str s => s == strL "error"
  | _ => false


/-- Python substring containment, `sub in s` for strings. -/
def containsSub (s sub : List Char) : Bool :=
  (List.range (s.length + 1)).any fun i => sub.isPrefixOf (s.drop i)

/-- The test `"error" in strategy` at line 199 of `print_strategy`: key
membership for a dictionary, element membership for a list, substring test
for a string; `none` models the `TypeError` raised on other values. -/
def py_in_error : Json → Option Bool
  | Json.obj ms => some (ms.any fun kv => kv.1 == strL "error")
  | Json.arr xs => some (xs.any isErrorStr)
  | Json.str s => some (containsSub s (strL "error"))
  | _ => none

/-! ## Concrete fixtures and helper lemmas for the pipeline claims -/

/-- A `StageOutcomes` in which every stage call succeeded with the texts
collected in `sr`. -/
def okStages (sr : StageResults) : StageOutcomes :=
  ⟨.ok sr.problem_map, .ok sr.market_scan, .ok sr.personas, .ok sr.solution_shapes,
   .ok sr.gtm_ideas, .ok sr.tech_notes, .ok sr.ops_notes, .ok sr.risks_list⟩

/-- The example request dictionary of `run_strategy.py` (lines 13–20). -/
def exampleInputs : PyDict :=
  [(strL "niche", .s (strL "AI agents for ecommerce")),
   (strL "stage", .s (strL "MVP")),
   (strL "geo", .s (strL "Pakistan, South Asia")),
   (strL "founder_profile", .s (strL "AI graduate with strong technical skills")),
   (strL "constraints", .s (strL "budget constraints, need to build MVP efficiently")),
   (strL "goals", .s (strL "make a proper working MVP that can be launched in the market"))]

/-- Eight arbitrary stage texts used by the concrete witnesses. -/
def exampleStageResults : StageResults :=
  ⟨strL "P", strL "M", strL "PE", strL "S", strL "G", strL "T", strL "O", strL "R"⟩

/-- A 600-character non-JSON synthesis output. -/
def longRaw : List Char := List.replicate 600 'a'


example : stripFences (strL "```json\n\x7b\"a\":1\x7d\n```") = strL "\x7b\"a\":1\x7d" := by decide
example : stripFences (strL "\x7b\"a\":1\x7d") = strL "\x7b\"a\":1\x7d" := by decide
example : stripFences (strL "prefix ```json \x7b\"a\":1\x7d ``` suffix")
    = strL "prefix ```json \x7b\"a\":1\x7d ``` suffix" := by decide
example : stripFences (strL "```json ```json x ``` ```") = strL "```json x ```" := by decide
example : stripFences (strL "```json x ```") = strL "x" := by decide

example : json_loads (strL "\x7b\"a\": 1\x7d")
    = some (Json.obj [(strL "a", Json.num (strL "1"))]) := by rfl
example : json_loads (strL " [1, true, null, \"x\", -2.5e3] ")
    = some (Json.arr [Json.num (strL "1"), Json.bool true, Json.null,
        Json.str (strL "x"), Json.num (strL "-2.5e3")]) := by rfl
example : json_loads (strL "not json at all") = none := by rfl
example : json_loads (strL "\x7b\"a\":1\x7d x") = none := by rfl
example : json_loads (strL "\"esc\\n\\u0041\"") = some (Json.str (strL "esc\nA")) := by rfl
example : normalize (strL "```json\n\x7b\"k\": [1, 2]\x7d\n```")
    = some (Json.obj [(strL "k", Json.arr [Json.num (strL "1"), Json.num (strL "2")])]) := by rfl

/-! ## Lemmas about trimming and fence stripping -/

theorem dropWhile_split {α : Type} (p : α → Bool) (l₁ l₂ : List α) :
    List.dropWhile p (l₁ ++ l₂) =
      if (List.dropWhile p l₁).isEmpty then List.dropWhile p l₂
      else List.dropWhile p l₁ ++ l₂ := by
  induction l₁ with
  | nil => simp
  | cons a l ih =>
    by_cases h : p a <;> simp [List.dropWhile_cons, h, ih]

theorem pyStrip_cons_space {c : Char} (l : List Char) (hc : isPySpace c = true) :
    pyStrip (c :: l) = pyStrip l := by
  simp [pyStrip, List.dropWhile_cons, hc]

theorem pyStrip_append_space (l : List Char) {c : Char} (hc : isPySpace c = true) :
    pyStrip (l ++ [c]) = pyStrip l := by
  unfold pyStrip
  rw [dropWhile_split]
  by_cases h : (List.dropWhile isPySpace l).isEmpty
  · rw [List.isEmpty_iff] at h
    simp [h, List.dropWhile_cons, hc]
  · simp only [h, if_false, Bool.false_eq_true]
    simp [List.reverse_append, List.dropWhile_cons, hc]

theorem pyStrip_ws_left (w l : List Char) (hw : ∀ c ∈ w, isPySpace c = true) :
    pyStrip (w ++ l) = pyStrip l := by
  induction w with
  | nil => rfl
  | cons a t ih =>
    rw [List.cons_append, pyStrip_cons_space _ (hw a (by simp))]
    exact ih fun c hc => hw c (by simp [hc])

theorem pyStrip_ws_right (l w : List Char) (hw : ∀ c ∈ w, isPySpace c = true) :
    pyStrip (l ++ w) = pyStrip l := by
  induction w using List.reverseRecOn with
  | nil => simp
  | append_singleton t c ih =>
    rw [← List.append_assoc, pyStrip_append_space _ (hw c (by simp))]
    exact ih fun d hd => hw d (by simp [hd])

theorem head_not_space_of_pyStrip (l : List Char) :
    ∀ c ∈ (pyStrip l).head?, isPySpace c = false := by
  intro c hc
  unfold pyStrip at hc
  rw [List.head?_reverse, Option.mem_def] at hc
  have hBne :
      List.dropWhile isPySpace (List.dropWhile isPySpace l).reverse ≠ [] := by
    intro h
    rw [h] at hc
    simp at hc
  obtain ⟨t, ht⟩ :=
    List.dropWhile_suffix (l := (List.dropWhile isPySpace l).reverse) isPySpace
  have hlast : (List.dropWhile isPySpace l).reverse.getLast? = some c := by
    rw [← ht, List.getLast?_append_of_ne_nil t hBne]
    exact hc
  rw [List.getLast?_reverse] at hlast
  have hmatch := List.head?_dropWhile_not isPySpace l
  rw [hlast] at hmatch
  exact hmatch

theorem last_not_space_of_pyStrip (l : List Char) :
    ∀ c ∈ (pyStrip l).getLast?, isPySpace c = false := by
  intro c hc
  unfold pyStrip at hc
  rw [List.getLast?_reverse, Option.mem_def] at hc
  have hmatch :=
    List.head?_dropWhile_not isPySpace (List.dropWhile isPySpace l).reverse
  rw [hc] at hmatch
  exact hmatch

theorem pyStrip_eq_self {l : List Char}
    (h1 : ∀ c ∈ l.head?, isPySpace c = false)
    (h2 : ∀ c ∈ l.getLast?, isPySpace c = false) : pyStrip l = l := by
  have hfront : List.dropWhile isPySpace l = l := by
    cases l with
    | nil => rfl
    | cons a t =>
      have ha := h1 a (by simp)
      simp [List.dropWhile_cons, ha]
  unfold pyStrip
  rw [hfront]
  obtain rfl | ⟨l', b, rfl⟩ := l.eq_nil_or_concat
  · rfl
  · have hb := h2 b (by simp)
    simp [List.reverse_append, List.dropWhile_cons, hb]

theorem pyStrip_idem (l : List Char) : pyStrip (pyStrip l) = pyStrip l :=
  pyStrip_eq_self (head_not_space_of_pyStrip l) (last_not_space_of_pyStrip l)

theorem pyStrip_stripFences (l : List Char) :
    pyStrip (stripFences l) = stripFences l := by
  unfold stripFences
  exact pyStrip_idem _

theorem isPrefixOf_append_self (l m : List Char) : l.isPrefixOf (l ++ m) = true := by
  rw [List.isPrefixOf_iff_prefix]
  exact List.prefix_append l m

theorem isSuffixOf_append_self (l m : List Char) : m.isSuffixOf (l ++ m) = true := by
  rw [List.isSuffixOf_iff_suffix]
  exact List.suffix_append l m

/-- If the stripped text does not expose a fresh fence opener or closer,
a second pass of `stripFences` changes nothing. -/
theorem stripFences_eq_self {l : List Char} (h0 : pyStrip l = l)
    (h1 : fenceOpen.isPrefixOf l = false) (h2 : fenceClose.isSuffixOf l = false) :
    stripFences l = l := by
  unfold stripFences dropOpen dropClose
  rw [h0, h1]
  simp only [Bool.false_eq_true, if_false]
  rw [h2]
  simp only [Bool.false_eq_true, if_false]
  exact h0

theorem pyStrip_core (t : List Char) :
    pyStrip (strL "```json\n" ++ t ++ strL "\n```")
      = strL "```json\n" ++ t ++ strL "\n```" := by
  unfold pyStrip
  have h1 : List.dropWhile isPySpace (strL "```json\n" ++ t ++ strL "\n```")
      = strL "```json\n" ++ t ++ strL "\n```" := by
    rw [List.append_assoc, dropWhile_split]
    rw [show List.dropWhile isPySpace (strL "```json\n") = strL "```json\n" from by decide]
    rw [show (strL "```json\n").isEmpty = false from by decide]
    simp
  rw [h1]
  have h2 : List.dropWhile isPySpace (strL "```json\n" ++ t ++ strL "\n```").reverse
      = (strL "```json\n" ++ t ++ strL "\n```").reverse := by
    rw [List.reverse_append, dropWhile_split]
    rw [show List.dropWhile isPySpace (strL "\n```").reverse = (strL "\n```").reverse
      from by decide]
    rw [show ((strL "\n```").reverse).isEmpty = false from by decide]
    simp
  rw [h2, List.reverse_reverse]

theorem stripFences_fenced (w1 w2 t : List Char)
    (hw1 : ∀ c ∈ w1, isPySpace c = true) (hw2 : ∀ c ∈ w2, isPySpace c = true)
    (ht : pyStrip t = t) :
    stripFences (w1 ++ strL "```json\n" ++ t ++ strL "\n```" ++ w2) = t := by
  unfold stripFences
  have e : w1 ++ strL "```json\n" ++ t ++ strL "\n```" ++ w2
      = w1 ++ ((strL "```json\n" ++ t ++ strL "\n```") ++ w2) := by
    simp [List.append_assoc]
  rw [e, pyStrip_ws_left _ _ hw1, pyStrip_ws_right _ _ hw2, pyStrip_core]
  have hopen : dropOpen (strL "```json\n" ++ t ++ strL "\n```")
      = ('\n' :: t) ++ strL "\n```" := by
    unfold dropOpen
    have e2 : strL "```json\n" ++ t ++ strL "\n```"
        = fenceOpen ++ (('\n' :: t) ++ strL "\n```") := by
      rw [show strL "```json\n" = fenceOpen ++ ['\n'] from by decide]
      simp [List.append_assoc]
    rw [e2, isPrefixOf_append_self]
    simp only [if_true]
    rw [show (7 : Nat) = fenceOpen.length from rfl, List.drop_left]
  have hclose : dropClose (('\n' :: t) ++ strL "\n```") = ('\n' :: t) ++ ['\n'] := by
    unfold dropClose
    have e3 : ('\n' :: t) ++ strL "\n```" = (('\n' :: t) ++ ['\n']) ++ fenceClose := by
      rw [show strL "\n```" = ['\n'] ++ fenceClose from by decide]
      simp [List.append_assoc]
    rw [e3, isSuffixOf_append_self]
    simp only [if_true]
    rw [show ((('\n' :: t) ++ ['\n']) ++ fenceClose).length - 3
        = (('\n' :: t) ++ ['\n']).length from by
      simp [show fenceClose.length = 3 from rfl]]
    rw [List.take_left]
  rw [hopen, hclose]
  rw [pyStrip_append_space _ (show isPySpace '\n' = true from by decide)]
  rw [pyStrip_cons_space _ (show isPySpace '\n' = true from by decide)]
  exact ht

theorem bindOk {ε α β : Type} (a : α) (f : α → Except ε β) :
    (Except.ok a >>= f : Except ε β) = f a := rfl

/-- Once the three banner lookups succeed, `generate_strategy` is the
`try`-block computation. -/
theorem generate_strategy_try {inputs : PyDict} {o : StageOutcomes}
    {synth : List (List Char × PyVal) → Outcome} {vn vg vs : PyVal}
    (hn : pyLookup inputs (strL "niche") = some vn)
    (hg : pyLookup inputs (strL "geo") = some vg)
    (hs : pyLookup inputs (strL "stage") = some vs) :
    generate_strategy inputs o synth =
      match final_chain_invoke inputs o synth with
      | .error e => .ok (errorResultOther e)
      | .ok raw =>
        match normalize raw with
        | some strategy => .ok strategy
        | none => .ok (errorResultParse raw) := by
  unfold generate_strategy
  simp only [hn, hg, hs]

/-! ## Claim theorems -/

/-- C1: `normalize` trims surrounding whitespace, removes a leading
```` ```json ```` opener exactly when the trimmed text begins with it,
removes a trailing ```` ``` ```` closer exactly when the opener-stripped
text ends with it, trims again and parses the remainder as JSON;
consequently, for any well-formed fenced JSON input (whitespace, fence
opener, payload, fence closer, whitespace) the result equals parsing the
payload directly. -/
theorem c1_normalize_fenced_json (w1 w2 t : List Char)
    (hw1 : ∀ c ∈ w1, isPySpace c = true) (hw2 : ∀ c ∈ w2, isPySpace c = true)
    (ht : pyStrip t = t) :
    normalize (w1 ++ strL "```json\n" ++ t ++ strL "\n```" ++ w2) = json_loads t := by
  unfold normalize
  rw [stripFences_fenced w1 w2 t hw1 hw2 ht]

/-- Witness for C1 at a concrete fenced document. -/
theorem c1_witness :
    normalize ([' '] ++ strL "```json\n" ++ strL "\x7b\"a\": 1\x7d" ++ strL "\n```" ++ ['\n'])
      = json_loads (strL "\x7b\"a\": 1\x7d") :=
  c1_normalize_fenced_json [' '] ['\n'] _ (by decide) (by decide) (by decide)

/-- C4 counterexample: fence stripping is NOT idempotent for every input.
On `"```json ```json x ``` ```"` one application leaves
`"```json x ```"`, and a second application strips further, to `"x"`. -/
theorem c4_counterexample :
    stripFences (stripFences (strL "```json ```json x ``` ```"))
      ≠ stripFences (strL "```json ```json x ``` ```") := by decide

/-- C4 (amended): fence stripping is strictly positional — the three spec
examples behave exactly as stated — and applying it twice equals applying
it once whenever the first application does not itself expose a fresh
leading ```` ```json ```` or trailing ```` ``` ````; unconditional
idempotence fails (see the counterexample). -/
theorem c4_fence_strip_positional :
    (∀ s : List Char,
        fenceOpen.isPrefixOf (stripFences s) = false →
        fenceClose.isSuffixOf (stripFences s) = false →
        stripFences (stripFences s) = stripFences s)
    ∧ stripFences (strL "```json\n\x7b\"a\":1\x7d\n```") = strL "\x7b\"a\":1\x7d"
    ∧ stripFences (strL "\x7b\"a\":1\x7d") = strL "\x7b\"a\":1\x7d"
    ∧ stripFences (strL "prefix ```json \x7b\"a\":1\x7d ``` suffix")
        = strL "prefix ```json \x7b\"a\":1\x7d ``` suffix" :=
  ⟨fun s h1 h2 => stripFences_eq_self (pyStrip_stripFences s) h1 h2,
    by decide, by decide, by decide⟩

/-- Witness for C4 (amended) at a concrete fence-free input. -/
theorem c4_witness :
    stripFences (stripFences (strL "\x7b\"a\":1\x7d")) = stripFences (strL "\x7b\"a\":1\x7d") :=
  c4_fence_strip_positional.1 (strL "\x7b\"a\":1\x7d") (by decide) (by decide)

set_option maxRecDepth 100000 in
/-- C2 counterexample: on a 600-character non-JSON synthesis output the
returned error dictionary carries the FULL raw text, which differs from
the input truncated to 500 characters with an ellipsis marker appended
(the truncated excerpt appears only in the console log, line 191), and
the error field is a fixed message rather than the parse error detail. -/
theorem c2_counterexample :
    generate_strategy exampleInputs (okStages exampleStageResults) (fun _ => .ok longRaw)
      = .ok (Json.obj [(strL "error", Json.str (strL "Failed to parse JSON response")),
          (strL "raw", Json.str longRaw)])
    ∧ longRaw ≠ longRaw.take 500 ++ strL "..." :=
  ⟨rfl, by decide⟩

/-- C2 (amended): for every synthesis output whose fence-stripped text is
not valid JSON, `generate_strategy` returns (never throws) an error
dictionary whose error field is the fixed string
`"Failed to parse JSON response"` and whose raw field equals the FULL
input text, untruncated; the 500-character truncation with ellipsis
marker applies only to the console diagnostic. -/
theorem c2_parse_failure_full_raw (inputs : PyDict) (o : StageOutcomes)
    (synth : List (List Char × PyVal) → Outcome) (raw : List Char) (vn vg vs : PyVal)
    (hn : pyLookup inputs (strL "niche") = some vn)
    (hg : pyLookup inputs (strL "geo") = some vg)
    (hs : pyLookup inputs (strL "stage") = some vs)
    (hchain : final_chain_invoke inputs o synth = .ok raw)
    (hparse : json_loads (stripFences raw) = none) :
    generate_strategy inputs o synth
      = .ok (Json.obj [(strL "error", Json.str (strL "Failed to parse JSON response")),
          (strL "raw", Json.str raw)]) := by
  rw [generate_strategy_try hn hg hs, hchain]
  have hp : normalize raw = none := hparse
  simp only [hp]
  rfl

/-- Witness for C2 (amended) at the concrete output `"not json at all"`. -/
theorem c2_witness :
    generate_strategy exampleInputs (okStages exampleStageResults)
        (fun _ => .ok (strL "not json at all"))
      = .ok (Json.obj [(strL "error", Json.str (strL "Failed to parse JSON response")),
          (strL "raw", Json.str (strL "not json at all"))]) :=
  c2_parse_failure_full_raw exampleInputs (okStages exampleStageResults)
    (fun _ => .ok (strL "not json at all")) (strL "not json at all")
    (.s (strL "AI agents for ecommerce")) (.s (strL "Pakistan, South Asia"))
    (.s (strL "MVP")) rfl rfl rfl rfl rfl

/-- C3 counterexample: with an empty input dictionary the banner print at
line 167 subscripts `inputs["niche"]` before the `try` block is entered,
so `generate_strategy` raises an uncaught `KeyError` instead of returning
an ErrorResult. -/
theorem c3_counterexample :
    generate_strategy [] (okStages exampleStageResults) (fun _ => .ok (strL "\x7b\x7d"))
      = .error (strL "KeyError: niche") := rfl

/-- C3 (amended): for every input dictionary containing the three keys read
by the banner prints before the `try` block (`niche`, `geo`, `stage`),
`generate_strategy` never raises — every failure arising in the stage
calls, the synthesis call or normalization is converted into a returned
dictionary. -/
theorem c3_no_uncaught_exception (inputs : PyDict) (o : StageOutcomes)
    (synth : List (List Char × PyVal) → Outcome) (vn vg vs : PyVal)
    (hn : pyLookup inputs (strL "niche") = some vn)
    (hg : pyLookup inputs (strL "geo") = some vg)
    (hs : pyLookup inputs (strL "stage") = some vs) :
    ∃ j : Json, generate_strategy inputs o synth = .ok j := by
  rw [generate_strategy_try hn hg hs]
  cases hch : final_chain_invoke inputs o synth with
  | error e => exact ⟨errorResultOther e, rfl⟩
  | ok raw =>
    cases hp : normalize raw with
    | none => exact ⟨errorResultParse raw, by simp only [hp]⟩
    | some j => exact ⟨j, by simp only [hp]⟩

/-- Witness for C3 (amended): a failing synthesis call still yields a
returned dictionary. -/
theorem c3_witness :
    ∃ j : Json, generate_strategy exampleInputs (okStages exampleStageResults)
        (fun _ => .error (strL "boom")) = .ok j :=
  c3_no_uncaught_exception exampleInputs (okStages exampleStageResults)
    (fun _ => .error (strL "boom"))
    (.s (strL "AI agents for ecommerce")) (.s (strL "Pakistan, South Asia"))
    (.s (strL "MVP")) rfl rfl rfl

/-- C5: if exactly one of the eight stage calls fails, the whole request
aborts fail-fast: `generate_strategy` returns the error dictionary holding
only that error's textual description — no raw-text field — and the
returned value is independent of whatever the other seven stages
produced. -/
theorem c5_stage_failure_fail_fast (inputs : PyDict) (o : StageOutcomes)
    (synth : List (List Char × PyVal) → Outcome) (vn vg vs : PyVal)
    (hn : pyLookup inputs (strL "niche") = some vn)
    (hg : pyLookup inputs (strL "geo") = some vg)
    (hs : pyLookup inputs (strL "stage") = some vs)
    (i : StageName) (e : List Char)
    (hfail : stageOutcome o i = .error e)
    (hok : ∀ j : StageName, j ≠ i → ∃ v, stageOutcome o j = .ok v) :
    generate_strategy inputs o synth = .ok (Json.obj [(strL "error", Json.str e)]) := by
  obtain ⟨f1, f2, f3, f4, f5, f6, f7, f8⟩ := o
  cases i with
  | problem_map =>
      simp only [stageOutcome] at hfail
      subst hfail
      rw [generate_strategy_try hn hg hs]
      rfl
  | market_scan =>
      obtain ⟨v1, h1⟩ := hok .problem_map (by decide)
      simp only [stageOutcome] at h1 hfail
      subst h1 hfail
      rw [generate_strategy_try hn hg hs]
      rfl
  | personas =>
      obtain ⟨v1, h1⟩ := hok .problem_map (by decide)
      obtain ⟨v2, h2⟩ := hok .market_scan (by decide)
      simp only [stageOutcome] at h1 h2 hfail
      subst h1 h2 hfail
      rw [generate_strategy_try hn hg hs]
      rfl
  | solution_shapes =>
      obtain ⟨v1, h1⟩ := hok .problem_map (by decide)
      obtain ⟨v2, h2⟩ := hok .market_scan (by decide)
      obtain ⟨v3, h3⟩ := hok .personas (by decide)
      simp only [stageOutcome] at h1 h2 h3 hfail
      subst h1 h2 h3 hfail
      rw [generate_strategy_try hn hg hs]
      rfl
  | gtm_ideas =>
      obtain ⟨v1, h1⟩ := hok .problem_map (by decide)
      obtain ⟨v2, h2⟩ := hok .market_scan (by decide)
      obtain ⟨v3, h3⟩ := hok .personas (by decide)
      obtain ⟨v4, h4⟩ := hok .solution_shapes (by decide)
      simp only [stageOutcome] at h1 h2 h3 h4 hfail
      subst h1 h2 h3 h4 hfail
      rw [generate_strategy_try hn hg hs]
      rfl
  | tech_notes =>
      obtain ⟨v1, h1⟩ := hok .problem_map (by decide)
      obtain ⟨v2, h2⟩ := hok .market_scan (by decide)
      obtain ⟨v3, h3⟩ := hok .personas (by decide)
      obtain ⟨v4, h4⟩ := hok .solution_shapes (by decide)
      obtain ⟨v5, h5⟩ := hok .gtm_ideas (by decide)
      simp only [stageOutcome] at h1 h2 h3 h4 h5 hfail
      subst h1 h2 h3 h4 h5 hfail
      rw [generate_strategy_try hn hg hs]
      rfl
  | ops_notes =>
      obtain ⟨v1, h1⟩ := hok .problem_map (by decide)
      obtain ⟨v2, h2⟩ := hok .market_scan (by decide)
      obtain ⟨v3, h3⟩ := hok .personas (by decide)
      obtain ⟨v4, h4⟩ := hok .solution_shapes (by decide)
      obtain ⟨v5, h5⟩ := hok .gtm_ideas (by decide)
      obtain ⟨v6, h6⟩ := hok .tech_notes (by decide)
      simp only [stageOutcome] at h1 h2 h3 h4 h5 h6 hfail
      subst h1 h2 h3 h4 h5 h6 hfail
      rw [generate_strategy_try hn hg hs]
      rfl
  | risks_list =>
      obtain ⟨v1, h1⟩ := hok .problem_map (by decide)
      obtain ⟨v2, h2⟩ := hok .market_scan (by decide)
      obtain ⟨v3, h3⟩ := hok .personas (by decide)
      obtain ⟨v4, h4⟩ := hok .solution_shapes (by decide)
      obtain ⟨v5, h5⟩ := hok .gtm_ideas (by decide)
      obtain ⟨v6, h6⟩ := hok .tech_notes (by decide)
      obtain ⟨v7, h7⟩ := hok .ops_notes (by decide)
      simp only [stageOutcome] at h1 h2 h3 h4 h5 h6 h7 hfail
      subst h1 h2 h3 h4 h5 h6 h7 hfail
      rw [generate_strategy_try hn hg hs]
      rfl

/-- Witness for C5: a failing `tech_notes` stage aborts the example run. -/
theorem c5_witness :
    generate_strategy exampleInputs
        ⟨.ok (strL "P"), .ok (strL "M"), .ok (strL "PE"), .ok (strL "S"),
         .ok (strL "G"), .error (strL "ProviderError: 429"), .ok (strL "O"), .ok (strL "R")⟩
        (fun _ => .ok (strL "\x7b\x7d"))
      = .ok (Json.obj [(strL "error", Json.str (strL "ProviderError: 429"))]) :=
  c5_stage_failure_fail_fast exampleInputs
    ⟨.ok (strL "P"), .ok (strL "M"), .ok (strL "PE"), .ok (strL "S"),
     .ok (strL "G"), .error (strL "ProviderError: 429"), .ok (strL "O"), .ok (strL "R")⟩
    (fun _ => .ok (strL "\x7b\x7d"))
    (.s (strL "AI agents for ecommerce")) (.s (strL "Pakistan, South Asia"))
    (.s (strL "MVP")) rfl rfl rfl
    StageName.tech_notes (strL "ProviderError: 429") rfl
    (fun j hj => by
      cases j
      case tech_notes => exact absurd rfl hj
      all_goals exact ⟨_, rfl⟩)

/-- C6: whenever the six request fields are present in the input
dictionary, the input to the synthesis prompt is exactly the six original
request values plus the eight stage texts under their named keys —
nothing else — with the request values threaded through the fan-out
unmodified. -/
theorem c6_synthesis_input_exact (inputs : PyDict) (sr : StageResults)
    (vn vst vg vf vc vgo : PyVal)
    (hn : pyLookup inputs (strL "niche") = some vn)
    (hst : pyLookup inputs (strL "stage") = some vst)
    (hg : pyLookup inputs (strL "geo") = some vg)
    (hf : pyLookup inputs (strL "founder_profile") = some vf)
    (hc : pyLookup inputs (strL "constraints") = some vc)
    (hgo : pyLookup inputs (strL "goals") = some vgo) :
    synthesis_input inputs sr = .ok
      [(strL "niche", vn), (strL "stage", vst), (strL "geo", vg),
       (strL "founder_profile", vf), (strL "constraints", vc), (strL "goals", vgo),
       (strL "problem_map", .s sr.problem_map), (strL "market_scan", .s sr.market_scan),
       (strL "personas", .s sr.personas), (strL "solution_shapes", .s sr.solution_shapes),
       (strL "gtm_ideas", .s sr.gtm_ideas), (strL "tech_notes", .s sr.tech_notes),
       (strL "ops_notes", .s sr.ops_notes), (strL "risks_list", .s sr.risks_list)] := by
  unfold synthesis_input merge_lambda
  simp only [bindOk, pySub, pyGet, hn, hst, hg, hf, hc, hgo,
    show pyLookup (parallel_map_output inputs sr) (strL "passthrough")
      = some (PyVal.dict inputs) from rfl,
    show pyLookup (parallel_map_output inputs sr) (strL "problem_map")
      = some (PyVal.s sr.problem_map) from rfl,
    show pyLookup (parallel_map_output inputs sr) (strL "market_scan")
      = some (PyVal.s sr.market_scan) from rfl,
    show pyLookup (parallel_map_output inputs sr) (strL "personas")
      = some (PyVal.s sr.personas) from rfl,
    show pyLookup (parallel_map_output inputs sr) (strL "solution_shapes")
      = some (PyVal.s sr.solution_shapes) from rfl,
    show pyLookup (parallel_map_output inputs sr) (strL "gtm_ideas")
      = some (PyVal.s sr.gtm_ideas) from rfl,
    show pyLookup (parallel_map_output inputs sr) (strL "tech_notes")
      = some (PyVal.s sr.tech_notes) from rfl,
    show pyLookup (parallel_map_output inputs sr) (strL "ops_notes")
      = some (PyVal.s sr.ops_notes) from rfl,
    show pyLookup (parallel_map_output inputs sr) (strL "risks_list")
      = some (PyVal.s sr.risks_list) from rfl]
  rfl

/-- Witness for C6 on the `run_strategy.py` example request. -/
theorem c6_witness :
    synthesis_input exampleInputs exampleStageResults = .ok
      [(strL "niche", .s (strL "AI agents for ecommerce")),
       (strL "stage", .s (strL "MVP")),
       (strL "geo", .s (strL "Pakistan, South Asia")),
       (strL "founder_profile", .s (strL "AI graduate with strong technical skills")),
       (strL "constraints", .s (strL "budget constraints, need to build MVP efficiently")),
       (strL "goals", .s (strL "make a proper working MVP that can be launched in the market")),
       (strL "problem_map", .s (strL "P")), (strL "market_scan", .s (strL "M")),
       (strL "personas", .s (strL "PE")), (strL "solution_shapes", .s (strL "S")),
       (strL "gtm_ideas", .s (strL "G")), (strL "tech_notes", .s (strL "T")),
       (strL "ops_notes", .s (strL "O")), (strL "risks_list", .s (strL "R"))] :=
  c6_synthesis_input_exact exampleInputs exampleStageResults
    (.s (strL "AI agents for ecommerce")) (.s (strL "MVP")) (.s (strL "Pakistan, South Asia"))
    (.s (strL "AI graduate with strong technical skills"))
    (.s (strL "budget constraints, need to build MVP efficiently"))
    (.s (strL "make a proper working MVP that can be launched in the market"))
    rfl rfl rfl rfl rfl rfl

/-- C7 counterexample: the synthesis template is read once, when the
module is imported (line 90), not at call time — with the template file
present at import time and absent at call time, the import-time content
is still used, whereas the claim as stated predicts the fallback. -/
theorem c7_counterexample :
    template_at_call (some (strL "A")) none ≠ load_synthesis_prompt none := by decide

/-- C7 (amended): the synthesis prompt template is loaded from the external
file `strategist_master_prompt.txt` once, at module import time — and if
the file is absent at that moment the load falls back to the embedded
minimal built-in template instead of failing; every synthesis call then
uses that import-time snapshot. -/
theorem c7_template_loading :
    (∀ c, load_synthesis_prompt (some c) = c)
    ∧ load_synthesis_prompt none = fallback_template
    ∧ ∀ fileAtImport fileAtCall,
        template_at_call fileAtImport fileAtCall = load_synthesis_prompt fileAtImport :=
  ⟨fun _ => rfl, rfl, fun _ _ => rfl⟩

/-- C8: for two requests differing only in the `geo` field, the five stage
prompts whose templates reference `geo` (problem_map, market_scan,
personas, gtm_ideas, ops_notes) differ exactly in the substituted geo text
— each renders as a common fixed context around the geo value — while the
three stages whose templates do not reference `geo` (solution_shapes,
tech_notes, risks_list) render identically. -/
theorem c8_geo_isolation (r1 r2 : StrategyRequest)
    (hni : r1.niche = r2.niche) (hst : r1.stage = r2.stage)
    (hfp : r1.founder_profile = r2.founder_profile)
    (hco : r1.constraints = r2.constraints) (hgo : r1.goals = r2.goals) :
    (∃ a b, problem_prompt_render r1 = a ++ r1.geo ++ b
          ∧ problem_prompt_render r2 = a ++ r2.geo ++ b)
    ∧ (∃ a b, market_prompt_render r1 = a ++ r1.geo ++ b
          ∧ market_prompt_render r2 = a ++ r2.geo ++ b)
    ∧ (∃ a b, personas_prompt_render r1 = a ++ r1.geo ++ b
          ∧ personas_prompt_render r2 = a ++ r2.geo ++ b)
    ∧ (∃ a b, gtm_prompt_render r1 = a ++ r1.geo ++ b
          ∧ gtm_prompt_render r2 = a ++ r2.geo ++ b)
    ∧ (∃ a b, ops_prompt_render r1 = a ++ r1.geo ++ b
          ∧ ops_prompt_render r2 = a ++ r2.geo ++ b)
    ∧ solutions_prompt_render r1 = solutions_prompt_render r2
    ∧ tech_prompt_render r1 = tech_prompt_render r2
    ∧ risks_prompt_render r1 = risks_prompt_render r2 := by
  refine ⟨⟨strL "\nYou are a ruthless product discovery expert.\nNiche: " ++ r1.niche
      ++ strL "; Geo: ",
    strL "; Stage: " ++ r1.stage ++ strL "; Founder: " ++ r1.founder_profile
      ++ strL "; Constraints: " ++ r1.constraints
      ++ strL ".\nList top 5 concrete problems (pain × frequency × willingness to pay) as JSON:\n[\x7b\"problem\":\"...\", \"evidence\":\"(what makes it real)\", \"current_workaround\":\"...\", \"severity\":1-5\x7d]\n",
    ?_, ?_⟩,
    ⟨strL "\nYou are a market mapper. Niche: " ++ r1.niche ++ strL "; Geo: ",
    strL ".\nProduce JSON with keys: segments (3-5), competitors (5-8, direct/indirect/substitute), whitespace (bullets).\n",
    ?_, ?_⟩,
    ⟨strL "\nDesign 2-3 buyer/user personas for " ++ r1.niche ++ strL " in ",
    strL ".\nReturn JSON: [\x7b \"name\": \"...\", \"segment\": \"...\", \"primary_jobs\":[], \"top_pains\":[], \"must_have_outcomes\":[] \x7d]\n",
    ?_, ?_⟩,
    ⟨strL "\nGTM for " ++ r1.niche ++ strL " in ",
    strL ". Constraints: " ++ r1.constraints ++ strL ". Stage: " ++ r1.stage
      ++ strL ".\nReturn JSON: \x7b\"positioning\":\"...\", \"channels\":[\"...\"], \"hooks\":[\"...\"], \"partnerships\":[\"...\"]\x7d\n",
    ?_, ?_⟩,
    ⟨strL "\nOutline ops & compliance for " ++ r1.niche ++ strL " in ",
    strL ". Stage: " ++ r1.stage
      ++ strL ".\nReturn JSON: \x7b\"team_plan\":[\x7b\"role\":\"...\",\"seniority\":\"...\",\"when\":\"now|later\"\x7d], \"processes\":[\"...\"], \"legal_compliance\":[\"...\"], \"tooling\":[\"...\"]\x7d\n",
    ?_, ?_⟩, ?_, ?_, ?_⟩
  all_goals
    simp [problem_prompt_render, market_prompt_render, personas_prompt_render,
      gtm_prompt_render, ops_prompt_render, solutions_prompt_render,
      tech_prompt_render, risks_prompt_render,
      hni, hst, hfp, hco, hgo, List.append_assoc]

/-- Witness for C8 on two concrete requests differing only in `geo`. -/
theorem c8_witness :
    tech_prompt_render ⟨strL "N", strL "idea", strL "Pakistan", strL "F", strL "C", strL "G"⟩
      = tech_prompt_render ⟨strL "N", strL "idea", strL "Global", strL "F", strL "C", strL "G"⟩ :=
  (c8_geo_isolation
    ⟨strL "N", strL "idea", strL "Pakistan", strL "F", strL "C", strL "G"⟩
    ⟨strL "N", strL "idea", strL "Global", strL "F", strL "C", strL "G"⟩
    rfl rfl rfl rfl rfl).2.2.2.2.2.2.1

/-- C9: the success and failure variants of `generate_strategy` are not
disjoint — an ErrorResult is any dictionary containing the key `"error"`,
so a successfully parsed strategy document with a top-level `"error"` key
is treated as a failure by `print_strategy`, indistinguishably from a
genuine parse-failure ErrorResult. -/
theorem c9_error_key_ambiguity :
    generate_strategy exampleInputs (okStages exampleStageResults)
        (fun _ => .ok (strL "\x7b\"error\": \"fake\", \"one_liner\": \"x\"\x7d"))
      = .ok (Json.obj [(strL "error", Json.str (strL "fake")),
          (strL "one_liner", Json.str (strL "x"))])
    ∧ py_in_error (Json.obj [(strL "error", Json.str (strL "fake")),
          (strL "one_liner", Json.str (strL "x"))]) = some true
    ∧ generate_strategy exampleInputs (okStages exampleStageResults)
        (fun _ => .ok (strL "not json at all"))
      = .ok (errorResultParse (strL "not json at all"))
    ∧ py_in_error (errorResultParse (strL "not json at all")) = some true :=
  ⟨rfl, rfl, rfl, rfl⟩

/-- C10: `generate_strategy` performs no type or shape check on the parsed
result — any synthesis output whose fence-stripped text is valid JSON of
any kind is returned as-is, even when it is not a dictionary. -/
theorem c10_no_shape_check (inputs : PyDict) (o : StageOutcomes)
    (synth : List (List Char × PyVal) → Outcome) (raw : List Char) (j : Json)
    (vn vg vs : PyVal)
    (hn : pyLookup inputs (strL "niche") = some vn)
    (hg : pyLookup inputs (strL "geo") = some vg)
    (hs : pyLookup inputs (strL "stage") = some vs)
    (hchain : final_chain_invoke inputs o synth = .ok raw)
    (hparse : json_loads (stripFences raw) = some j) :
    generate_strategy inputs o synth = .ok j := by
  rw [generate_strategy_try hn hg hs, hchain]
  have hp : normalize raw = some j := hparse
  simp only [hp]

/-- Witness for C10: a JSON array — not a dictionary — is returned as-is. -/
theorem c10_witness :
    generate_strategy exampleInputs (okStages exampleStageResults)
        (fun _ => .ok (strL "[1, 2]"))
      = .ok (Json.arr [Json.num (strL "1"), Json.num (strL "2")]) :=
  c10_no_shape_check exampleInputs (okStages exampleStageResults)
    (fun _ => .ok (strL "[1, 2]")) (strL "[1, 2]")
    (Json.arr [Json.num (strL "1"), Json.num (strL "2")])
    (.s (strL "AI agents for ecommerce")) (.s (strL "Pakistan, South Asia"))
    (.s (strL "MVP")) rfl rfl rfl rfl rfl

end Strategist
